import Mathlib

/-!
Shallow embedding of the DG-Lab Coyote WebSocket server
(src/telegram dglab/coyote_ws_server_api.py) and proofs of the spec claims.

Machine integers are modelled as Int (Python ints are unbounded, so no
wraparound is needed).  The asyncio event loop is modelled as a small-step
transition system: the single worker task of CoyoteServer is one phase slot,
and submissions and the app-bind callback may interleave at any step.
-/

namespace Coyote

/-- Embeds clamp_int from the source: max(lo, min(hi, x)). -/
def clamp_int (x lo hi : Int) : Int := max lo (min hi x)

/-- Embeds int(os.getenv("OWNER_MAX_POWER", "50")): the environment value,
parsed as an integer, defaulting to 50 when the variable is unset.  The parse
applies no clamping. -/
def ownerMaxPowerFromEnv (env : Option Int) : Int := env.getD 50

/-- Embeds the frozen dataclass Config from the source. -/
structure Config where
  WS_PORT : Int := 4567
  HEARTBEAT : Int := 60
  DEF_AMP : Int := 20
  DEF_FREQ : Int := 20
  DEF_COPIES : Int := 5
  FREQ_MAX : Int := 200
  COPIES_MIN : Int := 1
  COPIES_MAX : Int := 100
  OWNER_MAX_POWER : Int := 50
deriving DecidableEq, Repr

/-- Embeds the module-level CFG = Config(), with OWNER_MAX_POWER read from the
environment at import time. -/
def CFG (env : Option Int) : Config :=
  { OWNER_MAX_POWER := ownerMaxPowerFromEnv env }

/-- One 100ms pulse frame ((f,f,f,f),(s1,s2,s3,s4)) as built by
CoyoteController. -/
structure Frame where
  freqOp : Int × Int × Int × Int
  strength : Int × Int × Int × Int
deriving DecidableEq, Repr

/-- Embeds CoyoteController._build_pulse_frames: clamps amp to [0,100], freq
to [0, FREQ_MAX], copies to [COPIES_MIN, COPIES_MAX], then returns
[frame] * copies with a single strength spike in slot 2. -/
def build_pulse_frames (cfg : Config) (amp freq copies : Int) : List Frame :=
  let amp := clamp_int amp 0 100
  let freq := clamp_int freq 0 cfg.FREQ_MAX
  let copies := clamp_int copies cfg.COPIES_MIN cfg.COPIES_MAX
  let freq_op := (freq, freq, freq, freq)
  let strength_spike := (0, amp, 0, 0)
  let frame : Frame := { freqOp := freq_op, strength := strength_spike }
  List.replicate copies.toNat frame

/-- Embeds the ShockJob dataclass (its asyncio.Future slot is modelled
separately, as an Option-valued single-assignment cell). -/
structure ShockJob where
  channel : String
  amp_requested : Int
  freq : Int
  copies : Int
deriving DecidableEq, Repr

/-- Embeds the worker line amp_eff = min(job.amp_requested, cfg.OWNER_MAX_POWER). -/
def ampEffective (cfg : Config) (amp_requested : Int) : Int :=
  min amp_requested cfg.OWNER_MAX_POWER

/-- The success payload dict built by CoyoteServer._run_worker. -/
structure SuccessResp where
  ok : Bool
  mode : String
  channel : String
  amp_requested : Int
  amp_effective : Int
  owner_max : Int
  freq : Int
  copies : Int
  approx_duration_ms : Int
deriving DecidableEq, Repr

/-- Embeds the resp dict construction in _run_worker. -/
def workerSuccessResp (cfg : Config) (job : ShockJob) : SuccessResp :=
  let amp_eff := min job.amp_requested cfg.OWNER_MAX_POWER
  { ok := true
    mode := "pulse"
    channel := job.channel
    amp_requested := job.amp_requested
    amp_effective := amp_eff
    owner_max := cfg.OWNER_MAX_POWER
    freq := clamp_int job.freq 0 cfg.FREQ_MAX
    copies := job.copies
    approx_duration_ms := job.copies * 100 }

/-- Exceptions that controller.shock can raise, as caught by _run_worker:
the two pydglab_ws protocol errors, or anything else. -/
inductive ShockExc
  | invalidPulseOperation (msg : String)
  | pulseDataTooLong (msg : String)
  | other (msg : String)
deriving DecidableEq, Repr

/-- An HTTPException as raised by the server (status code plus detail). -/
structure HTTPError where
  status_code : Int
  detail : String
deriving DecidableEq, Repr

/-- How _run_worker classifies an exception raised by controller.shock:
the two protocol errors become 400, anything else 500. -/
def workerClassify : ShockExc → HTTPError
  | .invalidPulseOperation m => { status_code := 400, detail := "Invalid pulse: " ++ m }
  | .pulseDataTooLong m => { status_code := 400, detail := "Invalid pulse: " ++ m }
  | .other m => { status_code := 500, detail := "Shock failed: " ++ m }

/-- What a job's result slot can be resolved with. -/
inductive JobResult
  | success (r : SuccessResp)
  | failure (e : HTTPError)
deriving DecidableEq, Repr

/-- Embeds the guarded assignment pattern
if not job.done.done(): job.done.set_result(...) used on every resolution
path of _run_worker: an already-resolved slot is left untouched. -/
def resolveIfUnresolved (slot : Option JobResult) (r : JobResult) : Option JobResult :=
  match slot with
  | some x => some x
  | none => some r

/-- Outcome of the awaited controller.shock call inside _run_worker. -/
inductive ShockOutcome
  | ok
  | raised (e : ShockExc)
deriving DecidableEq, Repr

/-- Embeds the resolution logic of one _run_worker iteration: on normal
return resolve with the success payload, on an exception resolve with the
classified HTTPException, always through the done-guard. -/
def workerResolve (cfg : Config) (job : ShockJob) (o : ShockOutcome)
    (slot : Option JobResult) : Option JobResult :=
  match o with
  | .ok => resolveIfUnresolved slot (.success (workerSuccessResp cfg job))
  | .raised e => resolveIfUnresolved slot (.failure (workerClassify e))

/-- The two device channels accepted by the channel validator. -/
inductive Channel
  | A
  | B
deriving DecidableEq, Repr

/-- The string form of a channel, as returned by the validator (upper case). -/
def channelStr : Channel → String
  | .A => "A"
  | .B => "B"

/-- Models the Python str.upper() call of the channel validator: upper-case
every character (kernel-reducible, unlike String.toUpper). -/
def pyUpper (s : String) : String := ⟨s.data.map Char.toUpper⟩

/-- Embeds the ShockRequest channel validator: upper-case the value and
require A or B. -/
def parseChannel (s : String) : Option Channel :=
  if pyUpper s = "A" then some .A
  else if pyUpper s = "B" then some .B
  else none

/-- A raw inbound request body, before pydantic validation. -/
structure ShockRequestIn where
  channel : String
  amp : Int
  freq : Int
  copies : Int
deriving DecidableEq, Repr

/-- A validated ShockRequest (channel already normalized to upper case). -/
structure ShockRequest where
  channel : String
  amp : Int
  freq : Int
  copies : Int
deriving DecidableEq, Repr

/-- Embeds the pydantic field constraints of ShockRequest:
amp in [0,100], freq in [0, FREQ_MAX], copies in [COPIES_MIN, COPIES_MAX],
channel upper-cased and one of A or B.  Any violated constraint rejects the
request. -/
def validate_shock_request (cfg : Config) (r : ShockRequestIn) :
    Except String ShockRequest :=
  if 0 ≤ r.amp ∧ r.amp ≤ 100 then
    if 0 ≤ r.freq ∧ r.freq ≤ cfg.FREQ_MAX then
      if cfg.COPIES_MIN ≤ r.copies ∧ r.copies ≤ cfg.COPIES_MAX then
        match parseChannel r.channel with
        | some ch =>
            .ok { channel := channelStr ch, amp := r.amp, freq := r.freq,
                  copies := r.copies }
        | none => .error "channel must be A or B"
      else .error "copies out of range"
    else .error "freq out of range"
  else .error "amp out of range"

deriving instance DecidableEq for Except

/-- Tests whether an Except value is the ok constructor. -/
def exceptIsOk {ε α : Type} : Except ε α → Bool
  | .ok _ => true
  | .error _ => false

/-- The state the /shock endpoint consults before enqueuing: the
bound_event flag, whether server.controller is set, and the job queue. -/
structure EndpointState where
  bound : Bool
  controllerReady : Bool
  queue : List ShockJob
deriving DecidableEq, Repr

/-- Embeds the body of the /shock endpoint handler: fail fast with 503 when
the app is not bound (before any job is constructed), 503 when the controller
is not set, otherwise construct the job and append it to the queue. -/
def shock_endpoint (st : EndpointState) (req : ShockRequest) :
    EndpointState × Except HTTPError ShockJob :=
  if st.bound = false then
    (st, .error { status_code := 503,
                  detail := "Device/app not bound yet (scan QR in DG-Lab app)" })
  else if st.controllerReady = false then
    (st, .error { status_code := 503, detail := "Controller not ready" })
  else
    let job : ShockJob :=
      { channel := req.channel, amp_requested := req.amp, freq := req.freq,
        copies := req.copies }
    ({ st with queue := st.queue ++ [job] }, .ok job)

/-!
Transition-system model of the event loop.  There is exactly one worker task
(_run_worker), so at most one job is ever out of the queue being processed:
the worker is one phase slot.  Submissions (queue.put from the endpoint) and
the bind callback (bound_event.set) may interleave between any two steps.
Gateway events are what CoyoteController.shock sends to the pydglab_ws
client: clear_pulses (reset) then add_pulses (fire) for each job.
-/

/-- An event observed by the device gateway. -/
inductive GwEvent
  | reset (ch : String)
  | fire (ch : String) (frames : List Frame)
deriving DecidableEq, Repr

/-- Where the single worker task is inside its loop body. -/
inductive Phase
  | idle
  | ready (j : ShockJob)
  | resetDone (j : ShockJob)
deriving DecidableEq, Repr

/-- Global state: the bound flag, the FIFO queue, the worker phase, the list
of jobs the worker has finished (with the outcome of their shock call), the
gateway event trace, and the full submission history (a ghost variable used
to state ordering). -/
structure SysState where
  bound : Bool
  queue : List ShockJob
  phase : Phase
  processed : List (ShockJob × ShockOutcome)
  trace : List GwEvent
  submitted : List ShockJob
deriving DecidableEq, Repr

/-- The frames controller.shock builds for a job, after the worker applied
the owner ceiling. -/
def jobFrames (cfg : Config) (j : ShockJob) : List Frame :=
  build_pulse_frames cfg (min j.amp_requested cfg.OWNER_MAX_POWER) j.freq j.copies

/-- Small-step relation of the event loop.  submit is queue.put from the
endpoint; bindApp is client.bind() completing and bound_event.set();
dequeue is queue.get() (only when the worker is idle, i.e. its previous
iteration finished); emitReset requires the bound flag, matching
await bound_event.wait() before controller.shock; complete covers the
add_pulses call finishing with any outcome (normal return or exception):
either way the worker returns to the top of its loop. -/
inductive Step (cfg : Config) : SysState → SysState → Prop
  | submit (s : SysState) (j : ShockJob) :
      Step cfg s { s with queue := s.queue ++ [j], submitted := s.submitted ++ [j] }
  | bindApp (s : SysState) :
      Step cfg s { s with bound := true }
  | dequeue (s : SysState) (j : ShockJob) (q : List ShockJob)
      (h : s.phase = .idle) (hq : s.queue = j :: q) :
      Step cfg s { s with phase := .ready j, queue := q }
  | emitReset (s : SysState) (j : ShockJob)
      (h : s.phase = .ready j) (hb : s.bound = true) :
      Step cfg s { s with
                     phase := .resetDone j,
                     trace := s.trace ++ [.reset j.channel] }
  | complete (s : SysState) (j : ShockJob) (o : ShockOutcome)
      (h : s.phase = .resetDone j) :
      Step cfg s { s with
                     phase := .idle,
                     processed := s.processed ++ [(j, o)],
                     trace := s.trace ++ [.fire j.channel (jobFrames cfg j)] }

/-- The initial state: nothing bound, nothing queued, worker idle. -/
def initState : SysState :=
  { bound := false, queue := [], phase := .idle, processed := [], trace := [],
    submitted := [] }

/-- A state the event loop can reach from the initial state. -/
def Reachable (cfg : Config) (s : SysState) : Prop :=
  Relation.ReflTransGen (Step cfg) initState s

/-- The job currently held by the worker, if any. -/
def phaseJobs : Phase → List ShockJob
  | .idle => []
  | .ready j => [j]
  | .resetDone j => [j]

/-- The full gateway block one job produces: reset then fire. -/
def jobBlock (cfg : Config) (j : ShockJob) : List GwEvent :=
  [.reset j.channel, .fire j.channel (jobFrames cfg j)]

/-- The gateway events already emitted for the job the worker currently
holds. -/
def phaseTrace : Phase → List GwEvent
  | .idle => []
  | .ready _ => []
  | .resetDone j => [.reset j.channel]

/-- Concatenation of the gateway blocks of a processed-job list, in order. -/
def traceOf (cfg : Config) : List (ShockJob × ShockOutcome) → List GwEvent
  | [] => []
  | p :: ps => jobBlock cfg p.1 ++ traceOf cfg ps

/-- The serialization invariant: the submission history is exactly the
processed jobs, then the in-flight job, then the queue (FIFO order), and the
gateway trace is exactly the block-structured concatenation of the processed
jobs' reset-fire pairs followed by the partial block of the in-flight job. -/
def SeqInv (cfg : Config) (s : SysState) : Prop :=
  s.submitted = s.processed.map Prod.fst ++ phaseJobs s.phase ++ s.queue ∧
  s.trace = traceOf cfg s.processed ++ phaseTrace s.phase ∧
  (phaseJobs s.phase).length ≤ 1

/-- The property that an amplitude 4-tuple has exactly one non-zero slot,
that this slot equals a, and the remaining three slots are zero (the reading
of the claim about frame amplitude vectors). -/
def oneNonzeroSlotEq (v : Int × Int × Int × Int) (a : Int) : Prop :=
  (v.1 ≠ 0 ∧ v.1 = a ∧ v.2.1 = 0 ∧ v.2.2.1 = 0 ∧ v.2.2.2 = 0) ∨
  (v.2.1 ≠ 0 ∧ v.2.1 = a ∧ v.1 = 0 ∧ v.2.2.1 = 0 ∧ v.2.2.2 = 0) ∨
  (v.2.2.1 ≠ 0 ∧ v.2.2.1 = a ∧ v.1 = 0 ∧ v.2.1 = 0 ∧ v.2.2.2 = 0) ∨
  (v.2.2.2 ≠ 0 ∧ v.2.2.2 = a ∧ v.1 = 0 ∧ v.2.1 = 0 ∧ v.2.2.1 = 0)

/-- The frame-builder claim at one concrete input triple: the output has
exactly the clamped number of frames, all frames identical, each with the
clamped frequency vector and an amplitude vector with exactly one non-zero
slot equal to the clamped amplitude. -/
def claimFrameBuilderAt (cfg : Config) (amp freq copies : Int) : Prop :=
  (build_pulse_frames cfg amp freq copies).length
      = (clamp_int copies cfg.COPIES_MIN cfg.COPIES_MAX).toNat ∧
  (∀ f ∈ build_pulse_frames cfg amp freq copies,
    f.freqOp = (clamp_int freq 0 cfg.FREQ_MAX, clamp_int freq 0 cfg.FREQ_MAX,
                clamp_int freq 0 cfg.FREQ_MAX, clamp_int freq 0 cfg.FREQ_MAX) ∧
    oneNonzeroSlotEq f.strength (clamp_int amp 0 100)) ∧
  (∀ f ∈ build_pulse_frames cfg amp freq copies,
    ∀ g ∈ build_pulse_frames cfg amp freq copies, f = g)

/-- A concrete job used to exercise the reachability theorems. -/
def wJob : ShockJob :=
  { channel := "A", amp_requested := 80, freq := 20, copies := 5 }

/-- The concrete state reached by submitting wJob, binding the app, and
letting the worker run it to completion. -/
def wState : SysState :=
  { bound := true, queue := [], phase := .idle,
    processed := [(wJob, .ok)],
    trace := [.reset "A", .fire "A" (jobFrames (CFG none) wJob)],
    submitted := [wJob] }

/-- A concrete mid-execution state: the worker has emitted the reset for
wJob and is about to fire. -/
def wStateMid : SysState :=
  { bound := true, queue := [], phase := .resetDone wJob,
    processed := [], trace := [.reset "A"], submitted := [wJob] }

theorem traceOf_append (cfg : Config) (l₁ l₂ : List (ShockJob × ShockOutcome)) :
    traceOf cfg (l₁ ++ l₂) = traceOf cfg l₁ ++ traceOf cfg l₂ := by
  induction l₁ with
  | nil => simp [traceOf]
  | cons p ps ih => simp [traceOf, ih]

theorem seqInv_init (cfg : Config) : SeqInv cfg initState := by
  refine ⟨rfl, rfl, ?_⟩
  simp [initState, phaseJobs]

theorem seqInv_step (cfg : Config) {a b : SysState} (hs : Step cfg a b)
    (ih : SeqInv cfg a) : SeqInv cfg b := by
  obtain ⟨h1, h2, h3⟩ := ih
  cases hs with
  | submit j =>
      refine ⟨?_, h2, h3⟩
      simp [h1]
  | bindApp =>
      exact ⟨h1, h2, h3⟩
  | dequeue j q h hq =>
      rw [h] at h1 h2 h3
      rw [hq] at h1
      refine ⟨?_, ?_, ?_⟩
      · simp [phaseJobs] at h1 ⊢
        exact h1
      · simpa [phaseTrace] using h2
      · simp [phaseJobs]
  | emitReset j h hb =>
      rw [h] at h1 h2 h3
      refine ⟨?_, ?_, ?_⟩
      · simpa [phaseJobs] using h1
      · simp [phaseTrace] at h2 ⊢
        simp [h2]
      · simp [phaseJobs]
  | complete j o h =>
      rw [h] at h1 h2 h3
      refine ⟨?_, ?_, ?_⟩
      · simp [phaseJobs] at h1 ⊢
        simpa using h1
      · simp [phaseTrace, traceOf_append, traceOf, jobBlock] at h2 ⊢
        simp [h2]
      · simp [phaseJobs]

theorem seqInv_reachable (cfg : Config) (s : SysState) (h : Reachable cfg s) :
    SeqInv cfg s := by
  induction h with
  | refl => exact seqInv_init cfg
  | tail _ hstep ih => exact seqInv_step cfg hstep ih

/-- C5: the consumer assigns the result slot only after checking it is still
unresolved, so a second resolution attempt on an already-resolved slot is a
no-op and never overwrites the first value, on both the success and the
failure paths. -/
theorem c5_double_resolution_noop (cfg : Config) (job : ShockJob)
    (o : ShockOutcome) (x : JobResult) :
    workerResolve cfg job o (some x) = some x ∧
    resolveIfUnresolved (some x) (.success (workerSuccessResp cfg job)) = some x ∧
    (∀ e : ShockExc, resolveIfUnresolved (some x) (.failure (workerClassify e)) = some x) := by
  refine ⟨?_, rfl, fun e => rfl⟩
  cases o with
  | ok => rfl
  | raised e => rfl

/-- C6: if the binding-readiness flag is not set when a request reaches the
/shock endpoint, the endpoint fails immediately with HTTP 503 and the job is
never constructed or enqueued; the state is returned unchanged. -/
theorem c6_not_ready_fails_fast (st : EndpointState) (req : ShockRequest)
    (h : st.bound = false) :
    shock_endpoint st req =
      (st, .error { status_code := 503,
                    detail := "Device/app not bound yet (scan QR in DG-Lab app)" }) := by
  simp [shock_endpoint, h]

/-- Witness for C6 at a concrete unbound state and request. -/
theorem c6_witness :
    shock_endpoint { bound := false, controllerReady := false, queue := [] }
        { channel := "A", amp := 80, freq := 20, copies := 5 } =
      ({ bound := false, controllerReady := false, queue := [] },
       .error { status_code := 503,
                detail := "Device/app not bound yet (scan QR in DG-Lab app)" }) :=
  c6_not_ready_fails_fast
    { bound := false, controllerReady := false, queue := [] }
    { channel := "A", amp := 80, freq := 20, copies := 5 } rfl

/-- C8 counterexample: with the environment override OWNER_MAX_POWER=150 the
configured owner ceiling is 150, which is outside [0,100] and exceeds the
protocol amplitude ceiling of 100 — the code parses the override without any
clamping. -/
theorem c8_counterexample :
    (CFG (some 150)).OWNER_MAX_POWER = 150 ∧
    ¬ ((CFG (some 150)).OWNER_MAX_POWER ≤ 100) := by
  decide

/-- C8 amended: with the environment variable unset the owner ceiling is the
default 50, which lies in [0,100] and does not exceed the protocol amplitude
ceiling of 100; an environment override is parsed verbatim with no clamping,
so it can take any integer value including values outside [0,100]. -/
theorem c8_amended_owner_ceiling (v : Int) :
    (CFG none).OWNER_MAX_POWER = 50 ∧
    0 ≤ (CFG none).OWNER_MAX_POWER ∧
    (CFG none).OWNER_MAX_POWER ≤ 100 ∧
    (CFG (some v)).OWNER_MAX_POWER = v :=
  ⟨rfl, by decide, by decide, rfl⟩

/-- C9: the success payload resolved for an executed job carries exactly the
fields ok, mode equal to pulse, channel, amp_requested (the caller's
amplitude), amp_effective (the min with the owner ceiling), owner_max (the
configured ceiling), freq equal to the requested frequency clamped to
[0, FREQ_MAX], copies equal to the requested repeat count, and
approx_duration_ms equal to copies times 100. -/
theorem c9_success_payload (cfg : Config) (job : ShockJob) :
    (workerSuccessResp cfg job).ok = true ∧
    (workerSuccessResp cfg job).mode = "pulse" ∧
    (workerSuccessResp cfg job).channel = job.channel ∧
    (workerSuccessResp cfg job).amp_requested = job.amp_requested ∧
    (workerSuccessResp cfg job).amp_effective
        = min job.amp_requested cfg.OWNER_MAX_POWER ∧
    (workerSuccessResp cfg job).owner_max = cfg.OWNER_MAX_POWER ∧
    (workerSuccessResp cfg job).freq = clamp_int job.freq 0 cfg.FREQ_MAX ∧
    (workerSuccessResp cfg job).copies = job.copies ∧
    (workerSuccessResp cfg job).approx_duration_ms = job.copies * 100 :=
  ⟨rfl, rfl, rfl, rfl, rfl, rfl, rfl, rfl, rfl⟩

/-- C2 counterexample: at the integer triple (amp, freq, copies) = (0, 20, 5)
the claim fails: clamp(0,0,100) = 0, so the single spike slot is 0 and no
amplitude slot of any built frame is non-zero, refuting the requirement of
exactly one non-zero slot. -/
theorem c2_counterexample : ¬ claimFrameBuilderAt (CFG none) 0 20 5 := by
  simp only [claimFrameBuilderAt, oneNonzeroSlotEq]
  decide

/-- C2 amended: for every integer triple the Frame Builder returns exactly
clamp(copies, COPIES_MIN, COPIES_MAX) identical frames, each carrying the
frequency vector (f,f,f,f) with f = clamp(freq, 0, FREQ_MAX) and the
amplitude vector (0, clamp(amp,0,100), 0, 0): the second slot carries the
clamped amplitude and the remaining three slots are zero, so whenever
clamp(amp,0,100) is non-zero each frame has exactly one non-zero amplitude
slot equal to it. -/
theorem c2_amended_frame_builder (env : Option Int) (amp freq copies : Int) :
    build_pulse_frames (CFG env) amp freq copies =
      List.replicate (clamp_int copies 1 100).toNat
        { freqOp := (clamp_int freq 0 200, clamp_int freq 0 200,
                     clamp_int freq 0 200, clamp_int freq 0 200),
          strength := (0, clamp_int amp 0 100, 0, 0) } ∧
    (build_pulse_frames (CFG env) amp freq copies).length
        = (clamp_int copies 1 100).toNat ∧
    (clamp_int amp 0 100 ≠ 0 →
      ∀ f ∈ build_pulse_frames (CFG env) amp freq copies,
        oneNonzeroSlotEq f.strength (clamp_int amp 0 100)) := by
  refine ⟨rfl, List.length_replicate _ _, ?_⟩
  intro ha f hf
  have hfe := List.eq_of_mem_replicate hf
  subst hfe
  exact Or.inr (Or.inl ⟨ha, rfl, rfl, rfl, rfl⟩)

/-- Witness for the amended C2 at (80, 20, 5). -/
theorem c2_amended_witness :
    build_pulse_frames (CFG none) 80 20 5 =
      List.replicate 5
        { freqOp := (20, 20, 20, 20), strength := (0, 80, 0, 0) } ∧
    oneNonzeroSlotEq (0, 80, 0, 0) 80 := by
  have h := c2_amended_frame_builder none 80 20 5
  refine ⟨h.1, ?_⟩
  have h3 := h.2.2 (by decide)
      { freqOp := (20, 20, 20, 20), strength := (0, 80, 0, 0) } (by decide)
  exact h3

/-- C7: a frequency greater than 200 supplied to the request boundary is
rejected at validation (the request never validates successfully), while any
frequency value reaching the Frame Builder is clamped to [0, 200] in the
frequency vector of every built frame. -/
theorem c7_freq_reject_and_clamp (env : Option Int) (rIn : ShockRequestIn)
    (hf : rIn.freq > 200) (amp freq copies : Int) (f : Frame)
    (hmem : f ∈ build_pulse_frames (CFG env) amp freq copies) :
    exceptIsOk (validate_shock_request (CFG env) rIn) = false ∧
    f.freqOp = (clamp_int freq 0 200, clamp_int freq 0 200,
                clamp_int freq 0 200, clamp_int freq 0 200) ∧
    0 ≤ clamp_int freq 0 200 ∧ clamp_int freq 0 200 ≤ 200 := by
  have hFM : (CFG env).FREQ_MAX = 200 := rfl
  refine ⟨?_, ?_, ?_, ?_⟩
  · unfold validate_shock_request
    rw [hFM]
    split_ifs with h1 h2 h3
    · exact absurd h2.2 (by omega)
    · rfl
    · rfl
    · rfl
  · have hfe := List.eq_of_mem_replicate hmem
    subst hfe
    rfl
  · exact le_max_left 0 (min 200 freq)
  · exact max_le (by decide) (min_le_left 200 freq)

/-- Witness for C7: a request with frequency 250 is rejected, and the frame
built for raw frequency 250 carries the clamped frequency 200. -/
theorem c7_witness :
    exceptIsOk (validate_shock_request (CFG none)
        { channel := "A", amp := 80, freq := 250, copies := 5 }) = false ∧
    ({ freqOp := (200, 200, 200, 200), strength := (0, 80, 0, 0) } : Frame).freqOp
        = (clamp_int 250 0 200, clamp_int 250 0 200,
           clamp_int 250 0 200, clamp_int 250 0 200) ∧
    0 ≤ clamp_int 250 0 200 ∧ clamp_int 250 0 200 ≤ 200 :=
  c7_freq_reject_and_clamp none
    { channel := "A", amp := 80, freq := 250, copies := 5 } (by decide)
    80 250 5 { freqOp := (200, 200, 200, 200), strength := (0, 80, 0, 0) }
    (by decide)

/-- C10: every amplitude value placed in a frame built for a worker job lies
in [0, 100], for every owner ceiling the configuration can take, including
misconfigured environment overrides, because the Frame Builder clamps the
effective amplitude min(requested, ceiling) after the min is taken. -/
theorem c10_frame_amplitude_safe (env : Option Int) (ampReq freq copies : Int)
    (f : Frame)
    (hmem : f ∈ build_pulse_frames (CFG env)
        (min ampReq (CFG env).OWNER_MAX_POWER) freq copies) :
    (0 ≤ f.strength.1 ∧ f.strength.1 ≤ 100) ∧
    (0 ≤ f.strength.2.1 ∧ f.strength.2.1 ≤ 100) ∧
    (0 ≤ f.strength.2.2.1 ∧ f.strength.2.2.1 ≤ 100) ∧
    (0 ≤ f.strength.2.2.2 ∧ f.strength.2.2.2 ≤ 100) := by
  have hfe := List.eq_of_mem_replicate hmem
  subst hfe
  have h100 : (0 : Int) ≤ 100 := by decide
  refine ⟨⟨le_refl 0, h100⟩, ⟨?_, ?_⟩, ⟨le_refl 0, h100⟩, ⟨le_refl 0, h100⟩⟩
  · exact le_max_left 0 _
  · exact max_le h100 (min_le_left 100 _)

/-- Witness for C10 with the misconfigured ceiling 150 from the environment:
the built frame's amplitude slots all lie in [0, 100]. -/
theorem c10_witness :
    (0 ≤ ((⟨(20, 20, 20, 20), (0, 80, 0, 0)⟩ : Frame)).strength.1 ∧
        ((⟨(20, 20, 20, 20), (0, 80, 0, 0)⟩ : Frame)).strength.1 ≤ 100) ∧
    (0 ≤ ((⟨(20, 20, 20, 20), (0, 80, 0, 0)⟩ : Frame)).strength.2.1 ∧
        ((⟨(20, 20, 20, 20), (0, 80, 0, 0)⟩ : Frame)).strength.2.1 ≤ 100) ∧
    (0 ≤ ((⟨(20, 20, 20, 20), (0, 80, 0, 0)⟩ : Frame)).strength.2.2.1 ∧
        ((⟨(20, 20, 20, 20), (0, 80, 0, 0)⟩ : Frame)).strength.2.2.1 ≤ 100) ∧
    (0 ≤ ((⟨(20, 20, 20, 20), (0, 80, 0, 0)⟩ : Frame)).strength.2.2.2 ∧
        ((⟨(20, 20, 20, 20), (0, 80, 0, 0)⟩ : Frame)).strength.2.2.2 ≤ 100) :=
  c10_frame_amplitude_safe (some 150) 80 20 5
    ⟨(20, 20, 20, 20), (0, 80, 0, 0)⟩ (by decide)

/-- C1: for every job the consumer processes, built from a request that
passed boundary validation, the effective amplitude passed to the gateway
equals min(requested, owner ceiling), is at most the ceiling, and is at most
100. -/
theorem c1_effective_amplitude (env : Option Int) (rIn : ShockRequestIn)
    (r : ShockRequest) (st stOut : EndpointState) (job : ShockJob)
    (hv : validate_shock_request (CFG env) rIn = .ok r)
    (he : shock_endpoint st r = (stOut, .ok job)) :
    ampEffective (CFG env) job.amp_requested
        = min job.amp_requested (CFG env).OWNER_MAX_POWER ∧
    ampEffective (CFG env) job.amp_requested ≤ (CFG env).OWNER_MAX_POWER ∧
    ampEffective (CFG env) job.amp_requested ≤ 100 := by
  have hamp : r.amp ≤ 100 := by
    unfold validate_shock_request at hv
    split_ifs at hv with h1 h2 h3
    cases hch : parseChannel rIn.channel with
    | none => rw [hch] at hv; exact absurd hv (by simp)
    | some ch =>
        rw [hch] at hv
        injection hv with hv2
        rw [← hv2]
        exact h1.2
  have hjob : job.amp_requested = r.amp := by
    unfold shock_endpoint at he
    split_ifs at he with hb hc
    · injection he with he1 he2
      exact absurd he2 (by simp)
    · injection he with he1 he2
      exact absurd he2 (by simp)
    · injection he with he1 he2
      injection he2 with he3
      rw [← he3]
  refine ⟨rfl, min_le_right _ _, ?_⟩
  have : ampEffective (CFG env) job.amp_requested ≤ job.amp_requested :=
    min_le_left _ _
  rw [hjob] at this ⊢
  exact le_trans this hamp

/-- Witness for C1 with the end-to-end scenario request (A, 80, 20, 5) and
no environment override (owner ceiling 50). -/
theorem c1_witness :
    ampEffective (CFG none) 80 = min 80 (CFG none).OWNER_MAX_POWER ∧
    ampEffective (CFG none) 80 ≤ (CFG none).OWNER_MAX_POWER ∧
    ampEffective (CFG none) 80 ≤ 100 :=
  c1_effective_amplitude none
    { channel := "A", amp := 80, freq := 20, copies := 5 }
    { channel := "A", amp := 80, freq := 20, copies := 5 }
    { bound := true, controllerReady := true, queue := [] }
    { bound := true, controllerReady := true, queue := [wJob] }
    wJob (by decide) (by decide)

/-- C3: jobs are executed strictly in submission order with no reordering,
and at most one job is ever out of the queue being processed: in every
reachable state the submission history is exactly the processed jobs, then
the at-most-one in-flight job, then the queue, and the gateway trace is the
block-structured concatenation of the processed jobs' reset-then-fire pairs
followed by the partial block of the in-flight job. -/
theorem c3_fifo_serialized (cfg : Config) (s : SysState)
    (h : Reachable cfg s) :
    s.submitted = s.processed.map Prod.fst ++ phaseJobs s.phase ++ s.queue ∧
    s.trace = traceOf cfg s.processed ++ phaseTrace s.phase ∧
    (phaseJobs s.phase).length ≤ 1 :=
  seqInv_reachable cfg s h

/-- Witness for C3: the state reached by submitting one job, binding the
app, and letting the worker run the job to completion satisfies the
serialization invariant. -/
theorem c3_witness :
    wState.submitted
        = wState.processed.map Prod.fst ++ phaseJobs wState.phase ++ wState.queue ∧
    wState.trace = traceOf (CFG none) wState.processed ++ phaseTrace wState.phase ∧
    (phaseJobs wState.phase).length ≤ 1 :=
  c3_fifo_serialized (CFG none) wState
    (Relation.ReflTransGen.tail
      (Relation.ReflTransGen.tail
        (Relation.ReflTransGen.tail
          (Relation.ReflTransGen.tail
            (Relation.ReflTransGen.tail Relation.ReflTransGen.refl
              (Step.submit initState wJob))
            (Step.bindApp _))
          (Step.dequeue _ wJob [] rfl rfl))
        (Step.emitReset _ wJob rfl rfl))
      (Step.complete _ wJob .ok rfl))

/-- C4: an execution fault of kind Protocol-Invalid or Protocol-TooLong
resolves the job's slot with an HTTP 400 failure, any other exception
resolves it with an HTTP 500 failure, and in every case (any outcome of the
shock call) the worker returns to its loop head with the queue intact and
can dequeue the next queued job. -/
theorem c4_fault_classification (cfg : Config) (job : ShockJob) (m : String)
    (s : SysState) (j : ShockJob) (o : ShockOutcome)
    (h : s.phase = .resetDone j) :
    workerResolve cfg job (.raised (.invalidPulseOperation m)) none
        = some (.failure { status_code := 400, detail := "Invalid pulse: " ++ m }) ∧
    workerResolve cfg job (.raised (.pulseDataTooLong m)) none
        = some (.failure { status_code := 400, detail := "Invalid pulse: " ++ m }) ∧
    workerResolve cfg job (.raised (.other m)) none
        = some (.failure { status_code := 500, detail := "Shock failed: " ++ m }) ∧
    (∃ t : SysState, Step cfg s t ∧ t.phase = .idle ∧ t.queue = s.queue ∧
        t.processed = s.processed ++ [(j, o)]) ∧
    (∀ t : SysState, t.phase = .idle → ∀ j2 q2, t.queue = j2 :: q2 →
        ∃ u : SysState, Step cfg t u ∧ u.phase = .ready j2) := by
  refine ⟨rfl, rfl, rfl, ⟨_, Step.complete s j o h, rfl, rfl, rfl⟩, ?_⟩
  intro t ht j2 q2 htq
  exact ⟨_, Step.dequeue t j2 q2 ht htq, rfl⟩

/-- Witness for C4 at a concrete mid-execution state and a concrete raised
exception. -/
theorem c4_witness :
    workerResolve (CFG none) wJob (.raised (.invalidPulseOperation "boom")) none
        = some (.failure { status_code := 400, detail := "Invalid pulse: " ++ "boom" }) ∧
    workerResolve (CFG none) wJob (.raised (.pulseDataTooLong "boom")) none
        = some (.failure { status_code := 400, detail := "Invalid pulse: " ++ "boom" }) ∧
    workerResolve (CFG none) wJob (.raised (.other "boom")) none
        = some (.failure { status_code := 500, detail := "Shock failed: " ++ "boom" }) ∧
    (∃ t : SysState, Step (CFG none) wStateMid t ∧ t.phase = .idle ∧
        t.queue = wStateMid.queue ∧
        t.processed = wStateMid.processed ++ [(wJob, .raised (.other "boom"))]) ∧
    (∀ t : SysState, t.phase = .idle → ∀ j2 q2, t.queue = j2 :: q2 →
        ∃ u : SysState, Step (CFG none) t u ∧ u.phase = .ready j2) :=
  c4_fault_classification (CFG none) wJob "boom" wStateMid wJob
    (.raised (.other "boom")) rfl

end Coyote
